import Mathlib

/-!
Shallow embedding of `pbjam/guess_epsilon.py` (the `epsilon` class).

Conventions of the embedding:
- Python floats are modelled as rationals (`ℚ`).
- The transcendental library functions `np.log10`, `10 ** x` and the
  square root taken inside `np.std` are not computable over `ℚ`; they are
  passed in as abstract function parameters (`log10`, `pow10`, `sq`).
  Likewise `np.log(10.0)` is an abstract constant parameter `ln10`.
- A division by zero (a numeric fault that the Python source does not
  guard, producing inf or nan) is modelled by returning `none`.
- The external ensemble MCMC capability (`emcee`) is modelled by passing
  the full per-walker, per-iteration chain it would return as an input
  `chain : List (List (List ℚ))`, indexed walker-major then step, each
  entry a candidate parameter vector.
- The reference data load (`read_prior_data`) and the KDE construction
  (`make_kde`) are external data and density capabilities; the density
  only enters the log posterior, where it appears as the abstract
  function `logpdf`.
- Diagnostic side channels (`warnings.warn`, `print`) are modelled as
  booleans bundled with the return value.
-/

namespace PBjam

/-- A `[value, uncertainty]` two-element list of the source. -/
abbrev Pair := ℚ × ℚ

/-- Coefficient `alpha` of `vrard_dict` set in `__init__`. -/
def alpha : ℚ := 601 / 1000

/-- Coefficient `beta` of `vrard_dict` set in `__init__`. -/
def beta : ℚ := 632 / 1000

/-- The giant/dwarf `numax` boundary tested in `__call__`. -/
def numaxBoundary : ℚ := 288

/-- The observation dictionary built in `__call__`: value/uncertainty
pairs for the four observed quantities.  The same shape also serves as
the log observation built by `obs_to_log`. -/
structure Obs where
  dnu : Pair
  numax : Pair
  teff : Pair
  bp_rp : Pair
deriving DecidableEq, Repr

/-- Embedding of `epsilon.normal`: the Gaussian log likelihood term.
Source: `if (sigma < 0): return 0.0` then
`return -0.5 * (y - mu)**2 / sigma**2`.  When `sigma = 0` the source
divides by zero (unguarded); that fault is modelled as `none`. -/
def normal (y mu sigma : ℚ) : Option ℚ :=
  if sigma < 0 then some 0
  else if sigma = 0 then none
  else some (-(1 / 2) * (y - mu) ^ 2 / sigma ^ 2)

/-- The candidate parameter vector unpacked at the top of
`epsilon.likelihood`: `log_dnu, log_numax, log_teff, bp_rp, eps = p`. -/
structure Params where
  log_dnu : ℚ
  log_numax : ℚ
  log_teff : ℚ
  bp_rp : ℚ
  eps : ℚ
deriving DecidableEq, Repr

/-- Embedding of `epsilon.likelihood`: prior term `np.log(kde.pdf(p))`
(abstracted as `logpdf`) plus the four data terms from `normal` applied
to the stored log observation.  A division-by-zero fault in any `normal`
contribution poisons the result (`none`), matching nan propagation. -/
def likelihood (logpdf : Params → ℚ) (lobs : Obs) (p : Params) : Option ℚ := do
  let c1 ← normal p.log_dnu lobs.dnu.1 lobs.dnu.2
  let c2 ← normal p.log_numax lobs.numax.1 lobs.numax.2
  let c3 ← normal p.log_teff lobs.teff.1 lobs.teff.2
  let c4 ← normal p.bp_rp lobs.bp_rp.1 lobs.bp_rp.2
  return logpdf p + (0 + c1 + c2 + c3 + c4)

/-- Embedding of `epsilon.to_log10`: `if xerr > 0` convert to log10
space with first order error propagation, else return the pair
unchanged.  `log10` and `ln10` stand for `np.log10` and `np.log(10.0)`. -/
def to_log10 (log10 : ℚ → ℚ) (ln10 : ℚ) (x xerr : ℚ) : Pair :=
  if xerr > 0 then (log10 x, xerr / x / ln10) else (x, xerr)

/-- Embedding of `epsilon.obs_to_log`: applies `to_log10` to `dnu`,
`numax` and `teff` and copies `bp_rp` verbatim. -/
def obs_to_log (log10 : ℚ → ℚ) (ln10 : ℚ) (obs : Obs) : Obs :=
  { dnu := to_log10 log10 ln10 obs.dnu.1 obs.dnu.2
    numax := to_log10 log10 ln10 obs.numax.1 obs.numax.2
    teff := to_log10 log10 ln10 obs.teff.1 obs.teff.2
    bp_rp := obs.bp_rp }

/-- Return shape of `epsilon.vrard`: a scalar (epsilon, uncertainty)
pair when the input has length two, elementwise arrays otherwise. -/
inductive VrardOut where
  | scalar : ℚ → ℚ → VrardOut
  | arr : List ℚ → List ℚ → VrardOut
deriving DecidableEq, Repr

/-- Embedding of `epsilon.vrard`: `if len(dnu) == 2` return the scalar
`alpha + beta * log10(dnu[0])` with uncertainty `0.1`; otherwise apply
the formula elementwise with `unc = 0.1 * np.ones(len(dnu))`. -/
def vrard (log10 : ℚ → ℚ) (dnu : List ℚ) : VrardOut :=
  if dnu.length = 2 then
    VrardOut.scalar (alpha + beta * log10 (dnu.getD 0 0)) (1 / 10)
  else
    VrardOut.arr (dnu.map fun d => alpha + beta * log10 d)
      (List.replicate dnu.length (1 / 10))

/-- Arithmetic mean, the `ndarray.mean` used on sample columns. -/
def mean (l : List ℚ) : ℚ := l.sum / (l.length : ℚ)

/-- Population variance, the square of `ndarray.std`. -/
def variance (l : List ℚ) : ℚ := mean (l.map fun x => (x - mean l) ^ 2)

/-- Standard deviation `ndarray.std`, with the square root abstracted
as `sq`. -/
def std (sq : ℚ → ℚ) (l : List ℚ) : ℚ := sq (variance l)

/-- Embedding of the tail of `epsilon.kde_sampler`:
`sampler.chain[:, burnin:, :].reshape((-1, ndim))` applied to the chain
returned by the external ensemble MCMC capability — drop the first
`burnin` steps of every walker and flatten walker-major. -/
def kde_sampler (chain : List (List (List ℚ))) (burnin : ℕ) : List (List ℚ) :=
  (chain.map fun w => w.drop burnin).flatten

/-- Positional column extraction `samples[:, j]` from the sample pool. -/
def column (j : ℕ) (pool : List (List ℚ)) : List ℚ :=
  pool.map fun s => s.getD j 0

/-- Return shape of `epsilon.kde_predict`: either the sentinel integer
pair returned when no samples exist, or the per-order frequency means
and standard deviations. -/
inductive KdeOut where
  | sentinel : ℤ → ℤ → KdeOut
  | pred : List ℚ → List ℚ → KdeOut
deriving DecidableEq, Repr

/-- Embedding of `epsilon.kde_predict`.  The boolean records whether the
diagnostic `print` fired.  Source: if `self.samples == []` print a
diagnostic and return `-1, -1`; otherwise take `dnu = samples[:, 0]`,
`eps = samples[:, 3]`, build `freq = [(nn + eps) * 10**dnu for nn in n]`
and return the per-order mean and standard deviation.  Note the source
reads `eps` from column 3, not column 4. -/
def kde_predict (sq pow10 : ℚ → ℚ) (samples : List (List ℚ)) (n : List ℚ) :
    Bool × KdeOut :=
  if samples = [] then (true, KdeOut.sentinel (-1) (-1))
  else
    let dnu := column 0 samples
    let eps := column 3 samples
    let freq := n.map fun nn => List.zipWith (fun e d => (nn + e) * pow10 d) eps dnu
    (false, KdeOut.pred (freq.map mean) (freq.map (std sq)))

/-- Instance state of the `epsilon` class that the claims mention:
`self.method`, `self.verbose`, `self.obs` and `self.samples`.
`self.obs` starts as the empty list and later holds a dictionary, so it
is modelled as an `Option Obs` starting at `none`. -/
structure EpsilonState where
  method : String
  verbose : Bool
  obs : Option Obs
  samples : List (List ℚ)
deriving DecidableEq, Repr

/-- Embedding of `epsilon.__init__`: raises `ValueError` unless `method`
is `Vrard` or `KDE`, otherwise stores the configuration with empty
`obs` and `samples`. -/
def init (method : String) (verbose : Bool) : Except String EpsilonState :=
  if method = "Vrard" ∨ method = "KDE" then
    Except.ok { method := method, verbose := verbose, obs := none, samples := [] }
  else
    Except.error "The method parameter must be one of either Vrard or KDE"

/-- Whether a construction attempt succeeded. -/
def isOk (e : Except String EpsilonState) : Bool :=
  match e with
  | Except.ok _ => true
  | Except.error _ => false

/-- Extract the scalar branch payload of `vrard`; within `__call__` the
argument always has length two, so the array branch is unreachable. -/
def scalarOf : VrardOut → ℚ × ℚ
  | VrardOut.scalar e u => (e, u)
  | VrardOut.arr _ _ => (0, 0)

/-- Result of one invocation of `epsilon.__call__`: the updated instance
state, the returned value (`none` models the implicit Python `None`
return when the method string is neither known value, unreachable after
`init`), and whether `warnings.warn` fired. -/
structure CallResult where
  state : EpsilonState
  result : Option Pair
  warned : Bool
deriving DecidableEq, Repr

/-- Embedding of `epsilon.__call__`.  The Vrard branch returns before
`self.obs` is assigned; the KDE branch stores the observation, runs the
sampler (its chain supplied by the external MCMC capability), stores the
flattened pool in `self.samples` and returns the mean and standard
deviation of sample column 4. -/
def call (log10 sq : ℚ → ℚ) (chain : List (List (List ℚ))) (s : EpsilonState)
    (dnu numax teff bp_rp : Pair) (burnin : ℕ) : CallResult :=
  if s.method = "Vrard" then
    if numax.1 > numaxBoundary then
      { state := s
        result := some ((scalarOf (vrard log10 [dnu.1, dnu.2])).1, 1)
        warned := true }
    else
      { state := s
        result := some (scalarOf (vrard log10 [dnu.1, dnu.2]))
        warned := false }
  else
    let s1 := { s with obs := some { dnu := dnu, numax := numax, teff := teff, bp_rp := bp_rp } }
    if s.method = "KDE" then
      let samples := kde_sampler chain burnin
      { state := { s1 with samples := samples }
        result := some (mean (column 4 samples), std sq (column 4 samples))
        warned := false }
    else
      { state := s1, result := none, warned := false }

end PBjam

namespace PBjam

/-- Helper: length of the flattened post-burn-in pool. -/
theorem kde_sampler_length (chain : List (List (List ℚ))) (burnin niter : ℕ)
    (h : ∀ w ∈ chain, w.length = niter) :
    (kde_sampler chain burnin).length = chain.length * (niter - burnin) := by
  induction chain with
  | nil => simp [kde_sampler]
  | cons w ws ih =>
      have hw : w.length = niter := h w (by simp)
      have hws : ∀ u ∈ ws, u.length = niter := fun u hu => h u (by simp [hu])
      have ihs := ih hws
      simp only [kde_sampler, List.map_cons, List.flatten_cons, List.length_append,
        List.length_drop, hw] at *
      rw [ihs, List.length_cons, Nat.succ_mul, Nat.add_comm]

/-- Helper: every vector in the flattened pool comes from some walker of
the chain. -/
theorem kde_sampler_mem (chain : List (List (List ℚ))) (burnin : ℕ)
    (p : List ℚ) (hp : p ∈ kde_sampler chain burnin) :
    ∃ w ∈ chain, p ∈ w := by
  simp only [kde_sampler, List.mem_flatten, List.mem_map] at hp
  obtain ⟨l, ⟨w, hw, rfl⟩, hpl⟩ := hp
  exact ⟨w, hw, List.mem_of_mem_drop hpl⟩

end PBjam

namespace PBjam

/-- C5: for every value x and uncertainty xerr, if xerr > 0 then
to_log10 returns (log10 x, xerr / x / ln 10) and otherwise returns
(x, xerr) unchanged; and obs_to_log applies this transform to dnu,
numax and teff while copying bp_rp verbatim. -/
theorem C5_to_log10_and_obs_to_log (log10 : ℚ → ℚ) (ln10 : ℚ) :
    (∀ x xerr : ℚ,
      (xerr > 0 → to_log10 log10 ln10 x xerr = (log10 x, xerr / x / ln10)) ∧
      (¬ xerr > 0 → to_log10 log10 ln10 x xerr = (x, xerr))) ∧
    (∀ obs : Obs,
      (obs_to_log log10 ln10 obs).bp_rp = obs.bp_rp ∧
      (obs_to_log log10 ln10 obs).dnu = to_log10 log10 ln10 obs.dnu.1 obs.dnu.2 ∧
      (obs_to_log log10 ln10 obs).numax = to_log10 log10 ln10 obs.numax.1 obs.numax.2 ∧
      (obs_to_log log10 ln10 obs).teff = to_log10 log10 ln10 obs.teff.1 obs.teff.2) := by
  refine ⟨fun x xerr => ⟨fun h => ?_, fun h => ?_⟩,
    fun obs => ⟨rfl, rfl, rfl, rfl⟩⟩ <;> simp [to_log10, h]

/-- Witness for C5 at concrete inputs. -/
theorem C5_witness :
    to_log10 (fun q => q + 7) 1 100 2 = ((100 : ℚ) + 7, 2 / 100 / 1) ∧
    to_log10 (fun q => q + 7) 1 100 (-2) = (100, -2) := by
  exact ⟨((C5_to_log10_and_obs_to_log (fun q => q + 7) 1).1 100 2).1 (by norm_num),
    ((C5_to_log10_and_obs_to_log (fun q => q + 7) 1).1 100 (-2)).2 (by norm_num)⟩

end PBjam

namespace PBjam

/-- C6: vrard on a single (value, uncertainty) pair returns the scalar
0.601 + 0.632 * log10 value with uncertainty exactly 0.1; on an input of
length other than 2 it applies the formula elementwise and returns an
uncertainty array of the same length filled with 0.1. -/
theorem C6_vrard (log10 : ℚ → ℚ) :
    (∀ v u : ℚ,
      vrard log10 [v, u] =
        VrardOut.scalar (601 / 1000 + 632 / 1000 * log10 v) (1 / 10)) ∧
    (∀ dnu : List ℚ, dnu.length ≠ 2 →
      vrard log10 dnu =
        VrardOut.arr (dnu.map fun d => 601 / 1000 + 632 / 1000 * log10 d)
          (List.replicate dnu.length (1 / 10)) ∧
      (dnu.map fun d => 601 / 1000 + 632 / 1000 * log10 d).length = dnu.length ∧
      (List.replicate dnu.length ((1 : ℚ) / 10)).length = dnu.length) := by
  constructor
  · intro v u
    simp [vrard, alpha, beta]
  · intro dnu h
    refine ⟨?_, by simp, by simp⟩
    simp [vrard, h, alpha, beta]

/-- Witness for C6 at concrete inputs. -/
theorem C6_witness :
    vrard (fun q => q) [5, 3] =
      VrardOut.scalar ((601 : ℚ) / 1000 + 632 / 1000 * 5) (1 / 10) ∧
    vrard (fun q => q) [2, 4, 6] =
      VrardOut.arr (([2, 4, 6] : List ℚ).map fun d => 601 / 1000 + 632 / 1000 * d)
        (List.replicate 3 ((1 : ℚ) / 10)) := by
  exact ⟨(C6_vrard (fun q => q)).1 5 3,
    ((C6_vrard (fun q => q)).2 [2, 4, 6] (by decide)).1⟩

end PBjam

namespace PBjam

/-- C3 counterexample: at y = 1, mu = 0, sigma = 0 (a non-negative
sigma, so the claim asserts the Gaussian formula value) the contribution
is the division-by-zero fault, not any value; in particular it is not
the ℚ reading of the claimed formula. -/
theorem C3_counterexample :
    normal 1 0 0 = none ∧
    normal 1 0 0 ≠ some (-(1 / 2) * ((1 : ℚ) - 0) ^ 2 / 0 ^ 2) := by
  decide

/-- C3 (amended): the Gaussian log-likelihood contribution equals
exactly 0 whenever sigma is negative and equals
-0.5 * (y - mu)^2 / sigma^2 whenever sigma is positive; at sigma = 0
the evaluation divides by zero. -/
theorem C3_normal (y mu sigma : ℚ) :
    (sigma < 0 → normal y mu sigma = some 0) ∧
    (0 < sigma → normal y mu sigma = some (-(1 / 2) * (y - mu) ^ 2 / sigma ^ 2)) := by
  constructor
  · intro h
    simp [normal, h]
  · intro h
    simp [normal, not_lt.2 h.le, h.ne.symm]

/-- Witness for C3 at concrete inputs on both branches. -/
theorem C3_witness :
    normal 3 1 (-2) = some 0 ∧
    normal 3 1 2 = some (-(1 / 2) * ((3 : ℚ) - 1) ^ 2 / 2 ^ 2) := by
  exact ⟨(C3_normal 3 1 (-2)).1 (by norm_num), (C3_normal 3 1 2).2 (by norm_num)⟩

/-- C9: only strictly negative sigma is guarded in the Gaussian term;
at sigma = 0 with y distinct from mu the unguarded division by zero
fault occurs, and it propagates through the log-posterior data term, so
an exactly-zero uncertainty is not treated as unconstrained. -/
theorem C9_zero_sigma_fault (y mu : ℚ) (logpdf : Params → ℚ) (lobs : Obs)
    (p : Params) :
    (y ≠ mu → normal y mu 0 = none) ∧
    (p.log_dnu ≠ lobs.dnu.1 → lobs.dnu.2 = 0 →
      likelihood logpdf lobs p = none) := by
  constructor
  · intro _
    simp [normal]
  · intro _ h
    simp [likelihood, h, normal]

/-- Witness for C9: a zero uncertainty reaches the division by zero in
the Gaussian term and poisons the whole log-posterior data term. -/
theorem C9_witness :
    normal 2 0 0 = none ∧
    likelihood (fun _ => 0)
      { dnu := (1, 0), numax := (1, 1), teff := (1, 1), bp_rp := (1, 1) }
      { log_dnu := 5, log_numax := 1, log_teff := 1, bp_rp := 1, eps := 1 } = none := by
  exact ⟨(C9_zero_sigma_fault 2 0 (fun _ => 0)
      { dnu := (1, 0), numax := (1, 1), teff := (1, 1), bp_rp := (1, 1) }
      { log_dnu := 5, log_numax := 1, log_teff := 1, bp_rp := 1, eps := 1 }).1
        (by norm_num),
    (C9_zero_sigma_fault 2 0 (fun _ => 0)
      { dnu := (1, 0), numax := (1, 1), teff := (1, 1), bp_rp := (1, 1) }
      { log_dnu := 5, log_numax := 1, log_teff := 1, bp_rp := 1, eps := 1 }).2
        (by norm_num) rfl⟩

end PBjam

namespace PBjam

/-- C7: construction fails immediately for every method string outside
the set containing Vrard and KDE, and succeeds for strings in it. -/
theorem C7_init_validation (m : String) (v : Bool) :
    (¬ (m = "Vrard" ∨ m = "KDE") → isOk (init m v) = false) ∧
    ((m = "Vrard" ∨ m = "KDE") → isOk (init m v) = true) := by
  constructor <;> intro h <;> simp [init, isOk, h]

/-- Witness for C7: an unrecognized method string is rejected and both
recognized ones are accepted. -/
theorem C7_witness :
    isOk (init "Foo" false) = false ∧
    isOk (init "Vrard" false) = true ∧
    isOk (init "KDE" true) = true := by
  exact ⟨(C7_init_validation "Foo" false).1 (by decide),
    (C7_init_validation "Vrard" false).2 (by decide),
    (C7_init_validation "KDE" true).2 (by decide)⟩

/-- C8: calling kde_predict while the sample pool is empty emits the
diagnostic and returns the sentinel pair (-1, -1). -/
theorem C8_kde_predict_empty (sq pow10 : ℚ → ℚ) (n : List ℚ) :
    kde_predict sq pow10 [] n = (true, KdeOut.sentinel (-1) (-1)) := by
  simp [kde_predict]

end PBjam

namespace PBjam

/-- C4: with method Vrard, a call with numax above the 288 boundary
warns and returns the regression epsilon with uncertainty forced to 1,
and a call at or below the boundary returns the regression epsilon with
uncertainty 0.1 and no warning; the instance state is untouched. -/
theorem C4_vrard_dispatch (log10 sq : ℚ → ℚ) (chain : List (List (List ℚ)))
    (s : EpsilonState) (dnu numax teff bp_rp : Pair) (burnin : ℕ)
    (hm : s.method = "Vrard") :
    (numax.1 > numaxBoundary →
      call log10 sq chain s dnu numax teff bp_rp burnin =
        { state := s, result := some (alpha + beta * log10 dnu.1, 1), warned := true }) ∧
    (numax.1 ≤ numaxBoundary →
      call log10 sq chain s dnu numax teff bp_rp burnin =
        { state := s, result := some (alpha + beta * log10 dnu.1, 1 / 10), warned := false }) := by
  constructor
  · intro h
    simp [call, hm, h, vrard, scalarOf]
  · intro h
    simp [call, hm, not_lt.2 h, vrard, scalarOf]

/-- Witness for C4: both branches at concrete inputs, numax value 300
above the boundary and 50 below it. -/
theorem C4_witness :
    call (fun q => q) (fun q => q) []
        { method := "Vrard", verbose := false, obs := none, samples := [] }
        (2, 1) (300, 1) (1, 1) (1, 1) 0 =
      { state := { method := "Vrard", verbose := false, obs := none, samples := [] }
        result := some (alpha + beta * 2, 1), warned := true } ∧
    call (fun q => q) (fun q => q) []
        { method := "Vrard", verbose := false, obs := none, samples := [] }
        (2, 1) (50, 1) (1, 1) (1, 1) 0 =
      { state := { method := "Vrard", verbose := false, obs := none, samples := [] }
        result := some (alpha + beta * 2, 1 / 10), warned := false } := by
  exact ⟨(C4_vrard_dispatch (fun q => q) (fun q => q) []
      { method := "Vrard", verbose := false, obs := none, samples := [] }
      (2, 1) (300, 1) (1, 1) (1, 1) 0 rfl).1 (by norm_num [numaxBoundary]),
    (C4_vrard_dispatch (fun q => q) (fun q => q) []
      { method := "Vrard", verbose := false, obs := none, samples := [] }
      (2, 1) (50, 1) (1, 1) (1, 1) 0 rfl).2 (by norm_num [numaxBoundary])⟩

/-- C10: with method Vrard, no invocation of the call entry point
modifies the stored observation or the sample pool. -/
theorem C10_vrard_frame (log10 sq : ℚ → ℚ) (chain : List (List (List ℚ)))
    (s : EpsilonState) (dnu numax teff bp_rp : Pair) (burnin : ℕ)
    (hm : s.method = "Vrard") :
    (call log10 sq chain s dnu numax teff bp_rp burnin).state.obs = s.obs ∧
    (call log10 sq chain s dnu numax teff bp_rp burnin).state.samples = s.samples := by
  by_cases h : numax.1 > numaxBoundary <;> simp [call, hm, h]

/-- Witness for C10: a Vrard call leaves previously stored observation
and sample fields intact. -/
theorem C10_witness :
    (call (fun q => q) (fun q => q) []
        { method := "Vrard", verbose := false
          obs := some { dnu := (1, 1), numax := (2, 2), teff := (3, 3), bp_rp := (4, 4) }
          samples := [[9, 9, 9, 9, 9]] }
        (2, 1) (300, 1) (1, 1) (1, 1) 0).state.obs =
      some { dnu := (1, 1), numax := (2, 2), teff := (3, 3), bp_rp := (4, 4) } ∧
    (call (fun q => q) (fun q => q) []
        { method := "Vrard", verbose := false
          obs := some { dnu := (1, 1), numax := (2, 2), teff := (3, 3), bp_rp := (4, 4) }
          samples := [[9, 9, 9, 9, 9]] }
        (2, 1) (300, 1) (1, 1) (1, 1) 0).state.samples = [[9, 9, 9, 9, 9]] := by
  exact C10_vrard_frame (fun q => q) (fun q => q) []
    { method := "Vrard", verbose := false
      obs := some { dnu := (1, 1), numax := (2, 2), teff := (3, 3), bp_rp := (4, 4) }
      samples := [[9, 9, 9, 9, 9]] }
    (2, 1) (300, 1) (1, 1) (1, 1) 0 rfl

end PBjam

namespace PBjam

/-- C2: with method KDE and a chain of nwalkers walkers, niter steps
each, 5-dimensional states and burnin below niter, the retained sample
pool is the per-walker post-burn-in flattening with
nwalkers * (niter - burnin) rows of width 5, and the call returns the
mean and standard deviation of sample column 4. -/
theorem C2_kde_pool (log10 sq : ℚ → ℚ) (chain : List (List (List ℚ)))
    (s : EpsilonState) (dnu numax teff bp_rp : Pair)
    (nwalkers niter burnin : ℕ)
    (hm : s.method = "KDE")
    (hn : chain.length = nwalkers)
    (hw : ∀ w ∈ chain, w.length = niter)
    (hd : ∀ w ∈ chain, ∀ p ∈ w, p.length = 5)
    (_hb : burnin < niter) :
    (call log10 sq chain s dnu numax teff bp_rp burnin).state.samples =
      kde_sampler chain burnin ∧
    (call log10 sq chain s dnu numax teff bp_rp burnin).state.samples.length =
      nwalkers * (niter - burnin) ∧
    (∀ p ∈ (call log10 sq chain s dnu numax teff bp_rp burnin).state.samples,
      p.length = 5) ∧
    (call log10 sq chain s dnu numax teff bp_rp burnin).result =
      some (mean (column 4 (kde_sampler chain burnin)),
            std sq (column 4 (kde_sampler chain burnin))) := by
  have hv : s.method ≠ "Vrard" := by rw [hm]; decide
  have hsam : (call log10 sq chain s dnu numax teff bp_rp burnin).state.samples =
      kde_sampler chain burnin := by
    simp [call, hv, hm]
  refine ⟨hsam, ?_, ?_, ?_⟩
  · rw [hsam, kde_sampler_length chain burnin niter hw, hn]
  · intro p hp
    rw [hsam] at hp
    obtain ⟨w, hwc, hpw⟩ := kde_sampler_mem chain burnin p hp
    exact hd w hwc p hpw
  · simp [call, hv, hm]

/-- Witness for C2: one walker, two steps, burnin one; the pool is the
single post-burn-in vector and the returned pair is the mean and the
standard deviation of its fifth entry. -/
theorem C2_witness :
    (call (fun q => q) (fun q => q) [[[1, 2, 3, 4, 5], [6, 7, 8, 9, 10]]]
        { method := "KDE", verbose := false, obs := none, samples := [] }
        (1, 1) (1, 1) (1, 1) (1, 1) 1).state.samples =
      kde_sampler [[[1, 2, 3, 4, 5], [6, 7, 8, 9, 10]]] 1 ∧
    (call (fun q => q) (fun q => q) [[[1, 2, 3, 4, 5], [6, 7, 8, 9, 10]]]
        { method := "KDE", verbose := false, obs := none, samples := [] }
        (1, 1) (1, 1) (1, 1) (1, 1) 1).state.samples.length = 1 * (2 - 1) ∧
    (call (fun q => q) (fun q => q) [[[1, 2, 3, 4, 5], [6, 7, 8, 9, 10]]]
        { method := "KDE", verbose := false, obs := none, samples := [] }
        (1, 1) (1, 1) (1, 1) (1, 1) 1).result =
      some (mean (column 4 (kde_sampler [[[1, 2, 3, 4, 5], [6, 7, 8, 9, 10]]] 1)),
            std (fun q => q) (column 4 (kde_sampler [[[1, 2, 3, 4, 5], [6, 7, 8, 9, 10]]] 1))) := by
  have h := C2_kde_pool (fun q => q) (fun q => q)
    [[[1, 2, 3, 4, 5], [6, 7, 8, 9, 10]]]
    { method := "KDE", verbose := false, obs := none, samples := [] }
    (1, 1) (1, 1) (1, 1) (1, 1) 1 2 1 rfl rfl
    (by decide) (by decide) (by decide)
  exact ⟨h.1, h.2.1, h.2.2.2⟩

end PBjam

namespace PBjam

/-- C1: evaluation of kde_predict at a concrete pool exposing the column
choice.  The pool holds one vector with column 0 = 2 (log_dnu),
column 3 = 10 (bp_rp) and column 4 = 20 (eps); with the power function
abstracted as the identity, the source computes (1 + 10) * 2 = 22 from
column 3, while the eps column (index 4) of the data model would give
(1 + 20) * 2 = 42. -/
theorem C1_kde_predict_eval :
    kde_predict (fun q => q) (fun q => q) [[2, 0, 0, 10, 20]] [1] =
      (false, KdeOut.pred [(1 + 10) * 2] [0]) ∧
    ((1 : ℚ) + 10) * 2 ≠ (1 + 20) * 2 := by
  constructor
  · norm_num [kde_predict, column, mean, variance, std]
  · norm_num

end PBjam
